import Mathlib

/-!
Shallow embedding of the washing-machine control core
(`washer_fsm.ino`, `main.ino`, `pins.h`).

The embedding models the cycle state machine, the non-blocking stepper
sequencer, the debounced start-button sampler and the safety gate as pure
functions over an explicit machine state.  Time is passed into each tick as
the current millisecond and microsecond counter readings; `unsigned long`
(32-bit) subtraction is modelled explicitly as subtraction modulo 2^32
(`wsub`).  The excluded collaborators (LCD driver, RFID reader, raw GPIO
polarity) are abstracted away exactly as the specification prescribes:
the relay wrappers become boolean valve-on flags, the display writes are
dropped, and the armed signal is a boolean input to each tick.
-/

set_option autoImplicit false

namespace Washer

/-- 2^32, the modulus of Arduino's `unsigned long` arithmetic. -/
def W32 : Nat := 4294967296

/-- Unsigned 32-bit subtraction `a - b` as performed on `unsigned long`:
the difference modulo 2^32. -/
def wsub (a b : Nat) : Nat := (a % W32 + (W32 - b % W32)) % W32

/-- Stepper modes, from `enum StepperMode`. -/
inductive StepperMode where
  | STEPPER_STOP
  | STEPPER_CW
  | STEPPER_CCW
deriving DecidableEq, Repr

export StepperMode (STEPPER_STOP STEPPER_CW STEPPER_CCW)

/-- Washing stages, from `enum WashingState`. -/
inductive WashingState where
  | IDLE
  | FILLING
  | WASHING
  | RINSING
  | SPINNING
  | DRAINING
  | FINISHED
deriving DecidableEq, Repr

export WashingState (IDLE FILLING WASHING RINSING SPINNING DRAINING FINISHED)

/-- The whole mutable state of the washer module: every `static` variable of
`washer_fsm.ino` that affects control flow, together with the digital output
lines (valve relays as logical on-flags, the four stepper coil lines, and the
two status LEDs).  The LCD throttle timestamp is omitted: the display is an
excluded collaborator with no feedback into control flow. -/
structure WasherState where
  stepperMode : StepperMode
  stepIndex : Nat
  stepIntervalUs : Nat
  lastStepUs : Nat
  currentState : WashingState
  stateStartMs : Nat
  washPhaseStartMs : Nat
  washForward : Bool
  prevStartRaw : Bool
  lastStartChangeMs : Nat
  startPressedEvent : Bool
  stablePressed : Bool
  safeScreenShown : Bool
  inletOn : Bool
  drainOn : Bool
  in1 : Bool
  in2 : Bool
  in3 : Bool
  in4 : Bool
  ledYellow : Bool
  ledRed : Bool
deriving DecidableEq, Repr

/-- Stage durations in milliseconds, from the `static const unsigned long`
constants. -/
def FILL_MS : Nat := 5000

def WASH_MS : Nat := 12000

def RINSE_MS : Nat := 7000

def SPIN_MS : Nat := 5000

def DRAIN_MS : Nat := 5000

def FINISH_MS : Nat := 4000

def WASH_FORWARD_MS : Nat := 3000

def WASH_REVERSE_MS : Nat := 3000

def DEBOUNCE_MS : Nat := 150

/-- The 4-step full-step coil table `stepSeq` (`HIGH` = `true`). -/
def stepSeq : Nat → Bool × Bool × Bool × Bool
  | 0 => (true, false, true, false)
  | 1 => (false, true, true, false)
  | 2 => (false, true, false, true)
  | _ => (true, false, false, true)

/-- `applyStepperStep`: drive the four coil lines with row `idx` of the
step table. -/
def applyStepperStep (idx : Nat) (st : WasherState) : WasherState :=
  let p := stepSeq idx
  { st with in1 := p.1, in2 := p.2.1, in3 := p.2.2.1, in4 := p.2.2.2 }

/-- `stepperStop`: set mode to stopped and de-energize all four coils. -/
def stepperStop (st : WasherState) : WasherState :=
  { st with stepperMode := STEPPER_STOP,
            in1 := false, in2 := false, in3 := false, in4 := false }

/-- `stepperRun`: set the mode and restart the step timer from the current
microsecond reading. -/
def stepperRun (mode : StepperMode) (us : Nat) (st : WasherState) : WasherState :=
  { st with stepperMode := mode, lastStepUs := us }

/-- `updateStepper`: no-op when stopped; otherwise step once when at least
`stepIntervalUs` microseconds have elapsed since the last step, advancing the
phase index by +1 (clockwise) or +3 (counter-clockwise) modulo 4 and emitting
the coil pattern. -/
def updateStepper (us : Nat) (st : WasherState) : WasherState :=
  if st.stepperMode = STEPPER_STOP then st
  else if wsub us st.lastStepUs < st.stepIntervalUs then st
  else
    let idx := if st.stepperMode = STEPPER_CW then (st.stepIndex + 1) % 4
               else (st.stepIndex + 3) % 4
    applyStepperStep idx { st with lastStepUs := us, stepIndex := idx }

/-- `setRunLeds`: yellow = cycle running, red = finished. -/
def setRunLeds (running finished : Bool) (st : WasherState) : WasherState :=
  { st with ledYellow := running, ledRed := finished }

/-- `stopAllActuators`: both relays off, stepper stopped, both status LEDs
off. -/
def stopAllActuators (st : WasherState) : WasherState :=
  setRunLeds false false (stepperStop { st with inletOn := false, drainOn := false })

/-- `scanStartButton`: record raw-level changes with their timestamp; once the
raw level has been unchanged for strictly longer than the debounce window,
adopt it as the stable level, raising the one-shot event on a stable
released-to-pressed transition.  The raw matrix scan itself is the excluded
input collaborator, so the raw level of the START key is a boolean input. -/
def scanStartButton (startRaw : Bool) (now : Nat) (st : WasherState) : WasherState :=
  let st1 := if startRaw ≠ st.prevStartRaw then
               { st with prevStartRaw := startRaw, lastStartChangeMs := now }
             else st
  if wsub now st1.lastStartChangeMs > DEBOUNCE_MS then
    let st2 := if startRaw ∧ ¬st1.stablePressed then
                 { st1 with startPressedEvent := true }
               else st1
    { st2 with stablePressed := startRaw }
  else st1

/-- `enterState`: record the new stage and its entry time, force both valves
closed, then perform the stage's entry actions. -/
def enterState (s : WashingState) (ms us : Nat) (st : WasherState) : WasherState :=
  let st0 := { st with currentState := s, stateStartMs := ms,
                       inletOn := false, drainOn := false }
  match s with
  | IDLE => stopAllActuators st0
  | FILLING =>
      { setRunLeds true false (stepperStop st0) with inletOn := true }
  | WASHING =>
      stepperRun STEPPER_CW us
        { setRunLeds true false st0 with
            inletOn := false, stepIntervalUs := 1200,
            washForward := true, washPhaseStartMs := ms }
  | RINSING =>
      stepperRun STEPPER_CW us
        { setRunLeds true false st0 with stepIntervalUs := 1400 }
  | SPINNING =>
      stepperRun STEPPER_CW us
        { setRunLeds true false st0 with stepIntervalUs := 800 }
  | DRAINING =>
      { setRunLeds true false (stepperStop st0) with drainOn := true }
  | FINISHED =>
      setRunLeds false true (stopAllActuators st0)

/-- `washerSafeStop`: all actuators off, stage forced to `IDLE`, locked screen
marked as shown. -/
def washerSafeStop (st : WasherState) : WasherState :=
  { stopAllActuators st with currentState := IDLE, safeScreenShown := true }

/-- The `switch (currentState)` body of `washerLoop`, evaluated with the
millisecond reading `now` captured before the switch. -/
def washerSwitch (now us : Nat) (st : WasherState) : WasherState :=
  match st.currentState with
  | IDLE =>
      if st.startPressedEvent then
        enterState FILLING now us { st with startPressedEvent := false }
      else st
  | FILLING =>
      let st1 := if wsub now st.stateStartMs ≥ FILL_MS then
                   enterState WASHING now us { st with inletOn := false }
                 else st
      if st1.startPressedEvent then
        enterState IDLE now us { st1 with startPressedEvent := false }
      else st1
  | WASHING =>
      let phaseElapsed := wsub now st.washPhaseStartMs
      let st1 :=
        if st.washForward ∧ phaseElapsed ≥ WASH_FORWARD_MS then
          stepperRun STEPPER_CCW us
            { st with washForward := false, washPhaseStartMs := now }
        else if ¬st.washForward ∧ phaseElapsed ≥ WASH_REVERSE_MS then
          stepperRun STEPPER_CW us
            { st with washForward := true, washPhaseStartMs := now }
        else st
      let st2 := if wsub now st1.stateStartMs ≥ WASH_MS then
                   enterState RINSING now us (stepperStop st1)
                 else st1
      if st2.startPressedEvent then
        enterState IDLE now us { st2 with startPressedEvent := false }
      else st2
  | RINSING =>
      let st1 := if wsub now st.stateStartMs ≥ RINSE_MS then
                   enterState SPINNING now us st
                 else st
      if st1.startPressedEvent then
        enterState IDLE now us { st1 with startPressedEvent := false }
      else st1
  | SPINNING =>
      let st1 := if wsub now st.stateStartMs ≥ SPIN_MS then
                   enterState DRAINING now us (stepperStop { st with stepIntervalUs := 1200 })
                 else st
      if st1.startPressedEvent then
        enterState IDLE now us { st1 with startPressedEvent := false }
      else st1
  | DRAINING =>
      let st1 := if wsub now st.stateStartMs ≥ DRAIN_MS then
                   enterState FINISHED now us { st with drainOn := false }
                 else st
      if st1.startPressedEvent then
        enterState IDLE now us { st1 with startPressedEvent := false }
      else st1
  | FINISHED =>
      let st1 := if st.startPressedEvent then
                   enterState IDLE now us { st with startPressedEvent := false }
                 else st
      if wsub now st1.stateStartMs ≥ FINISH_MS then
        enterState IDLE now us st1
      else st1

/-- `washerLoop`: one armed scheduler tick.  Re-enter `IDLE` when coming back
from the locked screen, scan the button, pace the stepper, then evaluate the
stage switch.  `raw` is the instantaneous START-key level, `ms` and `us` the
clock readings for this tick. -/
def washerLoop (raw : Bool) (ms us : Nat) (st : WasherState) : WasherState :=
  let a := if st.safeScreenShown then
             enterState IDLE ms us { st with safeScreenShown := false }
           else st
  washerSwitch ms us (updateStepper us (scanStartButton raw ms a))

/-- One iteration of `loop()` in `main.ino`: run the washer FSM when armed,
otherwise force the safe stop.  The RFID collaborator that toggles the armed
flag is excluded; `enabled` is this tick's sampled value of `washerEnabled`. -/
def loopTick (enabled raw : Bool) (ms us : Nat) (st : WasherState) : WasherState :=
  if enabled then washerLoop raw ms us st else washerSafeStop st

/-- The values of all static variables at reset, before `setup()` runs, with
all modelled output lines low. -/
def washerReset : WasherState :=
  { stepperMode := STEPPER_STOP, stepIndex := 0, stepIntervalUs := 1200,
    lastStepUs := 0, currentState := IDLE, stateStartMs := 0,
    washPhaseStartMs := 0, washForward := true, prevStartRaw := false,
    lastStartChangeMs := 0, startPressedEvent := false, stablePressed := false,
    safeScreenShown := false, inletOn := false, drainOn := false,
    in1 := false, in2 := false, in3 := false, in4 := false,
    ledYellow := false, ledRed := false }

/-- `setupWasher`: relays off, stepper stopped, locked-screen flag cleared,
then enter `IDLE`. -/
def setupWasher (ms us : Nat) : WasherState :=
  enterState IDLE ms us (stepperStop washerReset)

/-- The machine state right after `setup()` in `main.ino`: `setupWasher`
followed by `washerSafeStop` (the system boots disarmed). -/
def coldStart : WasherState :=
  washerSafeStop (setupWasher 0 0)

/-- One scheduler tick's inputs: the armed flag, the raw START-key level and
the two clock readings. -/
structure TickInput where
  enabled : Bool
  raw : Bool
  ms : Nat
  us : Nat
deriving DecidableEq, Repr

/-- Run a sequence of scheduler ticks. -/
def runTicks : List TickInput → WasherState → WasherState
  | [], st => st
  | i :: rest, st => runTicks rest (loopTick i.enabled i.raw i.ms i.us st)

/-- The four stepper coil output lines as a tuple. -/
def coilsOf (st : WasherState) : Bool × Bool × Bool × Bool :=
  (st.in1, st.in2, st.in3, st.in4)

/-- Inlet-valve position mandated by the stage table in §4.4 of the spec:
open only while filling. -/
def inletOf : WashingState → Bool
  | FILLING => true
  | _ => false

/-- Drain-valve position mandated by the stage table in §4.4 of the spec:
open only while draining. -/
def drainOf : WashingState → Bool
  | DRAINING => true
  | _ => false

/-- Stepper mode mandated by the stage table in §4.4 of the spec. -/
def modeOf : WashingState → StepperMode
  | WASHING => STEPPER_CW
  | RINSING => STEPPER_CW
  | SPINNING => STEPPER_CW
  | _ => STEPPER_STOP

/-- The actuator observables of a state: valves, stepper mode, and the step
interval when the stepper is running. -/
def stageOutputs (st : WasherState) : Bool × Bool × StepperMode × Option Nat :=
  (st.inletOn, st.drainOn, st.stepperMode,
   match st.stepperMode with
   | STEPPER_STOP => none
   | _ => some st.stepIntervalUs)

/-- The §4.4 table, transcribed from the spec's words: valve positions,
stepper mode and stepper speed per stage (normal wash speed 1200 µs/step,
reduced rinse speed 1400, increased spin speed 800). -/
def specStageTable : WashingState → Bool × Bool × StepperMode × Option Nat
  | IDLE => (false, false, STEPPER_STOP, none)
  | FILLING => (true, false, STEPPER_STOP, none)
  | WASHING => (false, false, STEPPER_CW, some 1200)
  | RINSING => (false, false, STEPPER_CW, some 1400)
  | SPINNING => (false, false, STEPPER_CW, some 800)
  | DRAINING => (false, true, STEPPER_STOP, none)
  | FINISHED => (false, false, STEPPER_STOP, none)

/-- Time budget of each stage, from the duration constants (0 for `IDLE`,
which has no time budget). -/
def stageBudget : WashingState → Nat
  | IDLE => 0
  | FILLING => FILL_MS
  | WASHING => WASH_MS
  | RINSING => RINSE_MS
  | SPINNING => SPIN_MS
  | DRAINING => DRAIN_MS
  | FINISHED => FINISH_MS

/-- Timeout successor of each stage. -/
def stageSuccessor : WashingState → WashingState
  | IDLE => IDLE
  | FILLING => WASHING
  | WASHING => RINSING
  | RINSING => SPINNING
  | SPINNING => DRAINING
  | DRAINING => FINISHED
  | FINISHED => IDLE

/-- The valve lines agree with the pure per-stage valve table. -/
def valvesOk (st : WasherState) : Prop :=
  st.inletOn = inletOf st.currentState ∧ st.drainOn = drainOf st.currentState

/-- Number of debounced rising edges (stable released-to-pressed transitions,
which is exactly when the scanner raises the one-shot event) produced while
the START key's raw level is held pressed across the given tick times. -/
def pressRises : List Nat → WasherState → Nat
  | [], _ => 0
  | ms :: rest, st =>
      (if (scanStartButton true ms st).stablePressed ∧ ¬st.stablePressed then 1 else 0) +
        pressRises rest (scanStartButton true ms st)

/-- The observable outputs of the state machine: current stage, pending
event, valves, stepper mode and coil lines. -/
def obsOf (st : WasherState) :
    WashingState × Bool × Bool × Bool × StepperMode × (Bool × Bool × Bool × Bool) :=
  (st.currentState, st.startPressedEvent, st.inletOn, st.drainOn, st.stepperMode, coilsOf st)

/-- A debounced rising edge as seen by one scan call: the key is pressed, its
raw level did not just change (so the recorded change timestamp is old), the
debounce window has passed, and the stable level was still released. -/
def riseFlag (raw : Bool) (now : Nat) (st : WasherState) : Bool :=
  raw && (raw == st.prevStartRaw) &&
    decide (wsub now st.lastStartChangeMs > DEBOUNCE_MS) && !st.stablePressed

/-- Debounced rising edges raised during one tick of `loop()`. -/
def tickRises (i : TickInput) (st : WasherState) : Nat :=
  if i.enabled then
    (if riseFlag i.raw i.ms
        (if st.safeScreenShown then
          enterState IDLE i.ms i.us { st with safeScreenShown := false }
         else st) then 1 else 0)
  else 0

/-- Events consumed during one tick of `loop()`: the stage switch consumes
the one-shot flag whenever it is set when the switch runs. -/
def tickConsumes (i : TickInput) (st : WasherState) : Nat :=
  if i.enabled then
    (if (updateStepper i.us (scanStartButton i.raw i.ms
          (if st.safeScreenShown then
            enterState IDLE i.ms i.us { st with safeScreenShown := false }
           else st))).startPressedEvent then 1 else 0)
  else 0

/-- Total debounced rising edges over a run. -/
def runRises : List TickInput → WasherState → Nat
  | [], _ => 0
  | i :: r, st => tickRises i st + runRises r (loopTick i.enabled i.raw i.ms i.us st)

/-- Total consumed events over a run. -/
def runConsumes : List TickInput → WasherState → Nat
  | [], _ => 0
  | i :: r, st => tickConsumes i st + runConsumes r (loopTick i.enabled i.raw i.ms i.us st)

section PreservationLemmas

variable (raw : Bool) (ms us : Nat) (st : WasherState) (s : WashingState)

@[simp] lemma scan_currentState :
    (scanStartButton raw ms st).currentState = st.currentState := by
  unfold scanStartButton
  dsimp only
  repeat' split
  all_goals rfl

@[simp] lemma scan_stateStartMs :
    (scanStartButton raw ms st).stateStartMs = st.stateStartMs := by
  unfold scanStartButton
  dsimp only
  repeat' split
  all_goals rfl

@[simp] lemma scan_inletOn :
    (scanStartButton raw ms st).inletOn = st.inletOn := by
  unfold scanStartButton
  dsimp only
  repeat' split
  all_goals rfl

@[simp] lemma scan_drainOn :
    (scanStartButton raw ms st).drainOn = st.drainOn := by
  unfold scanStartButton
  dsimp only
  repeat' split
  all_goals rfl

@[simp] lemma scan_stepperMode :
    (scanStartButton raw ms st).stepperMode = st.stepperMode := by
  unfold scanStartButton
  dsimp only
  repeat' split
  all_goals rfl

@[simp] lemma scan_stepIndex :
    (scanStartButton raw ms st).stepIndex = st.stepIndex := by
  unfold scanStartButton
  dsimp only
  repeat' split
  all_goals rfl

@[simp] lemma scan_stepIntervalUs :
    (scanStartButton raw ms st).stepIntervalUs = st.stepIntervalUs := by
  unfold scanStartButton
  dsimp only
  repeat' split
  all_goals rfl

@[simp] lemma scan_lastStepUs :
    (scanStartButton raw ms st).lastStepUs = st.lastStepUs := by
  unfold scanStartButton
  dsimp only
  repeat' split
  all_goals rfl

@[simp] lemma scan_coils : coilsOf (scanStartButton raw ms st) = coilsOf st := by
  unfold scanStartButton coilsOf
  dsimp only
  repeat' split
  all_goals rfl

@[simp] lemma scan_washForward :
    (scanStartButton raw ms st).washForward = st.washForward := by
  unfold scanStartButton
  dsimp only
  repeat' split
  all_goals rfl

@[simp] lemma scan_washPhaseStartMs :
    (scanStartButton raw ms st).washPhaseStartMs = st.washPhaseStartMs := by
  unfold scanStartButton
  dsimp only
  repeat' split
  all_goals rfl

@[simp] lemma scan_safeScreenShown :
    (scanStartButton raw ms st).safeScreenShown = st.safeScreenShown := by
  unfold scanStartButton
  dsimp only
  repeat' split
  all_goals rfl

@[simp] lemma update_currentState :
    (updateStepper us st).currentState = st.currentState := by
  unfold updateStepper applyStepperStep
  dsimp only
  repeat' split
  all_goals rfl

@[simp] lemma update_stateStartMs :
    (updateStepper us st).stateStartMs = st.stateStartMs := by
  unfold updateStepper applyStepperStep
  dsimp only
  repeat' split
  all_goals rfl

@[simp] lemma update_inletOn : (updateStepper us st).inletOn = st.inletOn := by
  unfold updateStepper applyStepperStep
  dsimp only
  repeat' split
  all_goals rfl

@[simp] lemma update_drainOn : (updateStepper us st).drainOn = st.drainOn := by
  unfold updateStepper applyStepperStep
  dsimp only
  repeat' split
  all_goals rfl

@[simp] lemma update_stepperMode :
    (updateStepper us st).stepperMode = st.stepperMode := by
  unfold updateStepper applyStepperStep
  dsimp only
  repeat' split
  all_goals rfl

@[simp] lemma update_stepIntervalUs :
    (updateStepper us st).stepIntervalUs = st.stepIntervalUs := by
  unfold updateStepper applyStepperStep
  dsimp only
  repeat' split
  all_goals rfl

@[simp] lemma update_washForward :
    (updateStepper us st).washForward = st.washForward := by
  unfold updateStepper applyStepperStep
  dsimp only
  repeat' split
  all_goals rfl

@[simp] lemma update_washPhaseStartMs :
    (updateStepper us st).washPhaseStartMs = st.washPhaseStartMs := by
  unfold updateStepper applyStepperStep
  dsimp only
  repeat' split
  all_goals rfl

@[simp] lemma update_startPressedEvent :
    (updateStepper us st).startPressedEvent = st.startPressedEvent := by
  unfold updateStepper applyStepperStep
  dsimp only
  repeat' split
  all_goals rfl

@[simp] lemma update_stablePressed :
    (updateStepper us st).stablePressed = st.stablePressed := by
  unfold updateStepper applyStepperStep
  dsimp only
  repeat' split
  all_goals rfl

@[simp] lemma update_prevStartRaw :
    (updateStepper us st).prevStartRaw = st.prevStartRaw := by
  unfold updateStepper applyStepperStep
  dsimp only
  repeat' split
  all_goals rfl

@[simp] lemma update_lastStartChangeMs :
    (updateStepper us st).lastStartChangeMs = st.lastStartChangeMs := by
  unfold updateStepper applyStepperStep
  dsimp only
  repeat' split
  all_goals rfl

@[simp] lemma update_safeScreenShown :
    (updateStepper us st).safeScreenShown = st.safeScreenShown := by
  unfold updateStepper applyStepperStep
  dsimp only
  repeat' split
  all_goals rfl

@[simp] lemma enterState_currentState :
    (enterState s ms us st).currentState = s := by
  cases s <;> rfl

@[simp] lemma enterState_stateStartMs :
    (enterState s ms us st).stateStartMs = ms := by
  cases s <;> rfl

@[simp] lemma enterState_inletOn :
    (enterState s ms us st).inletOn = inletOf s := by
  cases s <;> rfl

@[simp] lemma enterState_drainOn :
    (enterState s ms us st).drainOn = drainOf s := by
  cases s <;> rfl

@[simp] lemma enterState_stepperMode :
    (enterState s ms us st).stepperMode = modeOf s := by
  cases s <;> rfl

@[simp] lemma enterState_startPressedEvent :
    (enterState s ms us st).startPressedEvent = st.startPressedEvent := by
  cases s <;> rfl

@[simp] lemma enterState_stablePressed :
    (enterState s ms us st).stablePressed = st.stablePressed := by
  cases s <;> rfl

@[simp] lemma enterState_prevStartRaw :
    (enterState s ms us st).prevStartRaw = st.prevStartRaw := by
  cases s <;> rfl

@[simp] lemma enterState_lastStartChangeMs :
    (enterState s ms us st).lastStartChangeMs = st.lastStartChangeMs := by
  cases s <;> rfl

@[simp] lemma enterState_safeScreenShown :
    (enterState s ms us st).safeScreenShown = st.safeScreenShown := by
  cases s <;> rfl

@[simp] lemma safeStop_currentState :
    (washerSafeStop st).currentState = IDLE := rfl

@[simp] lemma safeStop_inletOn : (washerSafeStop st).inletOn = false := rfl

@[simp] lemma safeStop_drainOn : (washerSafeStop st).drainOn = false := rfl

@[simp] lemma safeStop_stepperMode :
    (washerSafeStop st).stepperMode = STEPPER_STOP := rfl

@[simp] lemma safeStop_coils :
    coilsOf (washerSafeStop st) = (false, false, false, false) := rfl

@[simp] lemma safeStop_startPressedEvent :
    (washerSafeStop st).startPressedEvent = st.startPressedEvent := rfl

@[simp] lemma safeStop_prevStartRaw :
    (washerSafeStop st).prevStartRaw = st.prevStartRaw := rfl

@[simp] lemma safeStop_stablePressed :
    (washerSafeStop st).stablePressed = st.stablePressed := rfl

@[simp] lemma safeStop_lastStartChangeMs :
    (washerSafeStop st).lastStartChangeMs = st.lastStartChangeMs := rfl

@[simp] lemma safeStop_safeScreenShown :
    (washerSafeStop st).safeScreenShown = true := rfl

section StepperRunStop

variable (mode : StepperMode)

@[simp] lemma stepperRun_currentState :
    (stepperRun mode us st).currentState = st.currentState := rfl

@[simp] lemma stepperRun_stateStartMs :
    (stepperRun mode us st).stateStartMs = st.stateStartMs := rfl

@[simp] lemma stepperRun_startPressedEvent :
    (stepperRun mode us st).startPressedEvent = st.startPressedEvent := rfl

@[simp] lemma stepperRun_stepperMode :
    (stepperRun mode us st).stepperMode = mode := rfl

@[simp] lemma stepperRun_lastStepUs :
    (stepperRun mode us st).lastStepUs = us := rfl

@[simp] lemma stepperRun_stepIntervalUs :
    (stepperRun mode us st).stepIntervalUs = st.stepIntervalUs := rfl

@[simp] lemma stepperRun_inletOn : (stepperRun mode us st).inletOn = st.inletOn := rfl

@[simp] lemma stepperRun_drainOn : (stepperRun mode us st).drainOn = st.drainOn := rfl

@[simp] lemma stepperRun_washForward :
    (stepperRun mode us st).washForward = st.washForward := rfl

@[simp] lemma stepperRun_washPhaseStartMs :
    (stepperRun mode us st).washPhaseStartMs = st.washPhaseStartMs := rfl

@[simp] lemma stepperStop_currentState :
    (stepperStop st).currentState = st.currentState := rfl

@[simp] lemma stepperStop_stateStartMs :
    (stepperStop st).stateStartMs = st.stateStartMs := rfl

@[simp] lemma stepperStop_startPressedEvent :
    (stepperStop st).startPressedEvent = st.startPressedEvent := rfl

@[simp] lemma stepperStop_stepperMode :
    (stepperStop st).stepperMode = STEPPER_STOP := rfl

@[simp] lemma stepperStop_coils :
    coilsOf (stepperStop st) = (false, false, false, false) := rfl

@[simp] lemma stepperStop_inletOn : (stepperStop st).inletOn = st.inletOn := rfl

@[simp] lemma stepperStop_drainOn : (stepperStop st).drainOn = st.drainOn := rfl

@[simp] lemma stepperStop_stepIntervalUs :
    (stepperStop st).stepIntervalUs = st.stepIntervalUs := rfl

@[simp] lemma stepperStop_washForward :
    (stepperStop st).washForward = st.washForward := rfl

@[simp] lemma stepperStop_washPhaseStartMs :
    (stepperStop st).washPhaseStartMs = st.washPhaseStartMs := rfl

@[simp] lemma stopAll_currentState :
    (stopAllActuators st).currentState = st.currentState := rfl

@[simp] lemma stopAll_stateStartMs :
    (stopAllActuators st).stateStartMs = st.stateStartMs := rfl

@[simp] lemma stopAll_startPressedEvent :
    (stopAllActuators st).startPressedEvent = st.startPressedEvent := rfl

@[simp] lemma stopAll_inletOn : (stopAllActuators st).inletOn = false := rfl

@[simp] lemma stopAll_drainOn : (stopAllActuators st).drainOn = false := rfl

@[simp] lemma stopAll_stepperMode :
    (stopAllActuators st).stepperMode = STEPPER_STOP := rfl

@[simp] lemma stopAll_coils :
    coilsOf (stopAllActuators st) = (false, false, false, false) := rfl

end StepperRunStop

@[simp] lemma scan_false_startPressedEvent :
    (scanStartButton false ms st).startPressedEvent = st.startPressedEvent := by
  unfold scanStartButton
  dsimp only
  repeat' split
  all_goals simp_all

lemma scan_event_mono (h : st.startPressedEvent = true) :
    (scanStartButton raw ms st).startPressedEvent = true := by
  unfold scanStartButton
  dsimp only
  repeat' split
  all_goals simp_all

lemma washerLoop_not_shown (h : st.safeScreenShown = false) :
    washerLoop raw ms us st =
      washerSwitch ms us (updateStepper us (scanStartButton raw ms st)) := by
  simp [washerLoop, h]

end PreservationLemmas


/-- The stage switch with no pending and no fresh button event transitions
exactly on `elapsed ≥ budget`, stamping the new stage's entry time; on every
earlier tick the stage and its entry time are unchanged. -/
lemma washerSwitch_timeout (s : WasherState) (now us : Nat)
    (hev : s.startPressedEvent = false) (hni : s.currentState ≠ IDLE) :
    (stageBudget s.currentState ≤ wsub now s.stateStartMs →
      (washerSwitch now us s).currentState = stageSuccessor s.currentState ∧
      (washerSwitch now us s).stateStartMs = now) ∧
    (wsub now s.stateStartMs < stageBudget s.currentState →
      (washerSwitch now us s).currentState = s.currentState ∧
      (washerSwitch now us s).stateStartMs = s.stateStartMs) := by
  obtain ⟨mode, idx, intv, lsu, cs, ssm, wps, wf, pr, lc, ev, sp, sss, inl, dr,
    i1, i2, i3, i4, ly, lr⟩ := s
  dsimp only at hev hni ⊢
  subst hev
  cases cs
  case IDLE => exact absurd rfl hni
  case FILLING =>
    refine ⟨fun h => ?_, fun h => ?_⟩
    · simp only [stageBudget] at h
      simp [washerSwitch, ge_iff_le, h, stageSuccessor]
    · simp only [stageBudget] at h
      simp [washerSwitch, ge_iff_le, Nat.not_le.mpr h]
  case WASHING =>
    refine ⟨fun h => ?_, fun h => ?_⟩
    · simp only [stageBudget] at h
      by_cases hA : wf = true ∧ WASH_FORWARD_MS ≤ wsub now wps
      · simp [washerSwitch, ge_iff_le, hA, h, stageSuccessor]
      · by_cases hB : wf = false ∧ WASH_REVERSE_MS ≤ wsub now wps
        · simp [washerSwitch, ge_iff_le, hA, hB, h, stageSuccessor]
        · simp [washerSwitch, ge_iff_le, hA, hB, h, stageSuccessor]
    · simp only [stageBudget] at h
      by_cases hA : wf = true ∧ WASH_FORWARD_MS ≤ wsub now wps
      · simp [washerSwitch, ge_iff_le, hA, Nat.not_le.mpr h]
      · by_cases hB : wf = false ∧ WASH_REVERSE_MS ≤ wsub now wps
        · simp [washerSwitch, ge_iff_le, hA, hB, Nat.not_le.mpr h]
        · simp [washerSwitch, ge_iff_le, hA, hB, Nat.not_le.mpr h]
  case RINSING =>
    refine ⟨fun h => ?_, fun h => ?_⟩
    · simp only [stageBudget] at h
      simp [washerSwitch, ge_iff_le, h, stageSuccessor]
    · simp only [stageBudget] at h
      simp [washerSwitch, ge_iff_le, Nat.not_le.mpr h]
  case SPINNING =>
    refine ⟨fun h => ?_, fun h => ?_⟩
    · simp only [stageBudget] at h
      simp [washerSwitch, ge_iff_le, h, stageSuccessor]
    · simp only [stageBudget] at h
      simp [washerSwitch, ge_iff_le, Nat.not_le.mpr h]
  case DRAINING =>
    refine ⟨fun h => ?_, fun h => ?_⟩
    · simp only [stageBudget] at h
      simp [washerSwitch, ge_iff_le, h, stageSuccessor]
    · simp only [stageBudget] at h
      simp [washerSwitch, ge_iff_le, Nat.not_le.mpr h]
  case FINISHED =>
    refine ⟨fun h => ?_, fun h => ?_⟩
    · simp only [stageBudget] at h
      simp [washerSwitch, ge_iff_le, h, stageSuccessor]
    · simp only [stageBudget] at h
      simp [washerSwitch, ge_iff_le, Nat.not_le.mpr h]

/-- Claim C1: if the armed signal is false when a scheduler tick runs, then by
the end of that same tick the inlet valve is off, the drain valve is off, the
stepper is stopped with all four coil outputs de-energized, and the current
stage is `IDLE` — for every prior state, hence also on every later disarmed
tick. -/
theorem claim_C1_disarm_forces_safe_state (st : WasherState) (raw : Bool) (ms us : Nat) :
    (loopTick false raw ms us st).inletOn = false ∧
    (loopTick false raw ms us st).drainOn = false ∧
    (loopTick false raw ms us st).stepperMode = STEPPER_STOP ∧
    coilsOf (loopTick false raw ms us st) = (false, false, false, false) ∧
    (loopTick false raw ms us st).currentState = IDLE := by
  refine ⟨rfl, rfl, rfl, rfl, rfl⟩

/-- Claim C5: for every stage `s` and every prior state, the valve and stepper
outputs immediately after `enterState s` are fully determined by `s` alone and
match the §4.4 table exactly; moreover every stage with a stopped stepper
leaves all four coil lines de-energized. -/
theorem claim_C5_enterState_matches_table (s : WashingState) (ms us : Nat) (st : WasherState) :
    stageOutputs (enterState s ms us st) = specStageTable s ∧
    coilsOf (enterState IDLE ms us st) = (false, false, false, false) ∧
    coilsOf (enterState FILLING ms us st) = (false, false, false, false) ∧
    coilsOf (enterState DRAINING ms us st) = (false, false, false, false) ∧
    coilsOf (enterState FINISHED ms us st) = (false, false, false, false) := by
  refine ⟨?_, rfl, rfl, rfl, rfl⟩
  cases s <;> rfl

@[simp] lemma enterState_stepIntervalUs (s : WashingState) (ms us : Nat) (st : WasherState) :
    (enterState s ms us st).stepIntervalUs =
      (match s with
       | WASHING => 1200
       | RINSING => 1400
       | SPINNING => 800
       | _ => st.stepIntervalUs) := by
  cases s <;> rfl

@[simp] lemma enterState_washForward (s : WashingState) (ms us : Nat) (st : WasherState) :
    (enterState s ms us st).washForward =
      (match s with
       | WASHING => true
       | _ => st.washForward) := by
  cases s <;> rfl

@[simp] lemma enterState_washPhaseStartMs (s : WashingState) (ms us : Nat) (st : WasherState) :
    (enterState s ms us st).washPhaseStartMs =
      (match s with
       | WASHING => ms
       | _ => st.washPhaseStartMs) := by
  cases s <;> rfl

@[simp] lemma enterState_coils (s : WashingState) (ms us : Nat) (st : WasherState) :
    coilsOf (enterState s ms us st) =
      (match s with
       | WASHING => coilsOf st
       | RINSING => coilsOf st
       | SPINNING => coilsOf st
       | _ => (false, false, false, false)) := by
  cases s <;> rfl

/-- In a running stage whose budget has elapsed while a button event is also
pending, the switch runs the timeout branch first (entering the successor
stage) and the cancel branch second (consuming the event and entering
`IDLE`): the tick ends in `IDLE`, all actuators off, with the successor's
entry actions on the step interval still visible. -/
lemma washerSwitch_timeout_and_cancel (s : WasherState) (now us : Nat)
    (hev : s.startPressedEvent = true)
    (hrun : s.currentState = FILLING ∨ s.currentState = WASHING ∨
      s.currentState = RINSING ∨ s.currentState = SPINNING ∨ s.currentState = DRAINING)
    (htimeout : stageBudget s.currentState ≤ wsub now s.stateStartMs) :
    (washerSwitch now us s).currentState = IDLE ∧
    (washerSwitch now us s).startPressedEvent = false ∧
    (washerSwitch now us s).inletOn = false ∧
    (washerSwitch now us s).drainOn = false ∧
    (washerSwitch now us s).stepperMode = STEPPER_STOP ∧
    coilsOf (washerSwitch now us s) = (false, false, false, false) ∧
    (washerSwitch now us s).stateStartMs = now ∧
    (s.currentState = FILLING →
      (washerSwitch now us s).stepIntervalUs = 1200 ∧
      (washerSwitch now us s).washForward = true ∧
      (washerSwitch now us s).washPhaseStartMs = now) ∧
    (s.currentState = WASHING → (washerSwitch now us s).stepIntervalUs = 1400) ∧
    (s.currentState = RINSING → (washerSwitch now us s).stepIntervalUs = 800) ∧
    (s.currentState = SPINNING → (washerSwitch now us s).stepIntervalUs = 1200) := by
  obtain ⟨mode, idx, intv, lsu, cs, ssm, wps, wf, pr, lc, ev, sp, sss, inl, dr,
    i1, i2, i3, i4, ly, lr⟩ := s
  dsimp only at hev hrun htimeout ⊢
  subst hev
  cases cs
  case IDLE => simp at hrun
  case FINISHED => simp at hrun
  case FILLING =>
    simp only [stageBudget] at htimeout
    simp [washerSwitch, ge_iff_le, htimeout, inletOf, drainOf, modeOf]
  case WASHING =>
    simp only [stageBudget] at htimeout
    by_cases hA : wf = true ∧ WASH_FORWARD_MS ≤ wsub now wps
    · simp [washerSwitch, ge_iff_le, hA, htimeout, inletOf, drainOf, modeOf]
    · by_cases hB : wf = false ∧ WASH_REVERSE_MS ≤ wsub now wps
      · simp [washerSwitch, ge_iff_le, hA, hB, htimeout, inletOf, drainOf, modeOf]
      · simp [washerSwitch, ge_iff_le, hA, hB, htimeout, inletOf, drainOf, modeOf]
  case RINSING =>
    simp only [stageBudget] at htimeout
    simp [washerSwitch, ge_iff_le, htimeout, inletOf, drainOf, modeOf]
  case SPINNING =>
    simp only [stageBudget] at htimeout
    simp [washerSwitch, ge_iff_le, htimeout, inletOf, drainOf, modeOf]
  case DRAINING =>
    simp only [stageBudget] at htimeout
    simp [washerSwitch, ge_iff_le, htimeout, inletOf, drainOf, modeOf]

/-- Elapsed-time transition behaviour of one armed tick, shared helper. -/
lemma washerLoop_timeout_spec (st : WasherState) (ms us : Nat)
    (hss : st.safeScreenShown = false) (hev : st.startPressedEvent = false)
    (hni : st.currentState ≠ IDLE) :
    (stageBudget st.currentState ≤ wsub ms st.stateStartMs →
      (washerLoop false ms us st).currentState = stageSuccessor st.currentState ∧
      (washerLoop false ms us st).stateStartMs = ms) ∧
    (wsub ms st.stateStartMs < stageBudget st.currentState →
      (washerLoop false ms us st).currentState = st.currentState ∧
      (washerLoop false ms us st).stateStartMs = st.stateStartMs) := by
  rw [washerLoop_not_shown false ms us st hss]
  have h3 : (updateStepper us (scanStartButton false ms st)).startPressedEvent = false := by
    simp [hev]
  have h4 : (updateStepper us (scanStartButton false ms st)).currentState ≠ IDLE := by
    simpa using hni
  have main := washerSwitch_timeout (updateStepper us (scanStartButton false ms st)) ms us h3 h4
  simpa using main

/-- Claim C3: with no pending or fresh button event and the armed screen
already showing, a non-`IDLE` stage transitions to its successor exactly on a
tick where the elapsed time since that stage's own entry time reaches its
budget (inclusive bound, so `elapsed = budget` transitions), stamping the new
stage's entry time with the tick's clock reading; on any tick with
`elapsed < budget` the stage and its entry time are unchanged. -/
theorem claim_C3_transition_on_budget (st : WasherState) (ms us : Nat)
    (hss : st.safeScreenShown = false) (hev : st.startPressedEvent = false)
    (hni : st.currentState ≠ IDLE) :
    (stageBudget st.currentState ≤ wsub ms st.stateStartMs →
      (washerLoop false ms us st).currentState = stageSuccessor st.currentState ∧
      (washerLoop false ms us st).stateStartMs = ms) ∧
    (wsub ms st.stateStartMs < stageBudget st.currentState →
      (washerLoop false ms us st).currentState = st.currentState ∧
      (washerLoop false ms us st).stateStartMs = st.stateStartMs) :=
  washerLoop_timeout_spec st ms us hss hev hni

/-- Witness for C3: from `FILLING` entered at time 0, the tick at 5000 ms
(elapsed = budget) moves to `WASHING`, while the tick at 4999 ms does not. -/
theorem claim_C3_transition_on_budget_witness :
    (washerLoop false 5000 0 (enterState FILLING 0 0 (setupWasher 0 0))).currentState = WASHING ∧
    (washerLoop false 4999 0 (enterState FILLING 0 0 (setupWasher 0 0))).currentState = FILLING := by
  have h := claim_C3_transition_on_budget (enterState FILLING 0 0 (setupWasher 0 0)) 5000 0
    (by decide) (by decide) (by decide)
  have h' := claim_C3_transition_on_budget (enterState FILLING 0 0 (setupWasher 0 0)) 4999 0
    (by decide) (by decide) (by decide)
  exact ⟨(h.1 (by decide)).1, (h'.2 (by decide)).1⟩

/-- Full behavioural characterization of one stepper tick, shared helper. -/
lemma updateStepper_spec (st : WasherState) (us : Nat) :
    (st.stepperMode = STEPPER_STOP → updateStepper us st = st) ∧
    (st.stepperMode ≠ STEPPER_STOP →
      (wsub us st.lastStepUs < st.stepIntervalUs → updateStepper us st = st) ∧
      (st.stepIntervalUs ≤ wsub us st.lastStepUs →
        (updateStepper us st).stepIndex =
          (if st.stepperMode = STEPPER_CW then (st.stepIndex + 1) % 4
           else (st.stepIndex + 3) % 4) ∧
        (updateStepper us st).lastStepUs = us ∧
        coilsOf (updateStepper us st) = stepSeq ((updateStepper us st).stepIndex) ∧
        ∀ us2 : Nat, wsub us2 us < st.stepIntervalUs →
          updateStepper us2 (updateStepper us st) = updateStepper us st)) := by
  refine ⟨fun h => ?_, fun h => ⟨fun hlt => ?_, fun hge => ?_⟩⟩
  · simp [updateStepper, h]
  · simp [updateStepper, h, hlt]
  · have hnlt : ¬ wsub us st.lastStepUs < st.stepIntervalUs := Nat.not_lt.mpr hge
    refine ⟨?_, ?_, ?_, fun us2 h2 => ?_⟩
    · simp [updateStepper, h, hnlt, applyStepperStep]
    · simp [updateStepper, h, hnlt, applyStepperStep]
    · simp [updateStepper, h, hnlt, applyStepperStep, coilsOf]
    · simp [updateStepper, h, hnlt, applyStepperStep, h2]

/-- Claim C4: the stepper tick is a no-op when the mode is `STEPPER_STOP`;
otherwise it leaves the state untouched while less than `stepIntervalUs`
microseconds have elapsed since `lastStepUs`, and exactly when the interval
has elapsed it advances the phase index by +1 mod 4 (clockwise) or −1 mod 4
(counter-clockwise), emits the coil pattern of the new index, and updates
`lastStepUs` — so a further call within the interval causes no extra
advance. -/
theorem claim_C4_stepper_pacing (st : WasherState) (us : Nat) :
    (st.stepperMode = STEPPER_STOP → updateStepper us st = st) ∧
    (st.stepperMode ≠ STEPPER_STOP →
      (wsub us st.lastStepUs < st.stepIntervalUs → updateStepper us st = st) ∧
      (st.stepIntervalUs ≤ wsub us st.lastStepUs →
        (updateStepper us st).stepIndex =
          (if st.stepperMode = STEPPER_CW then (st.stepIndex + 1) % 4
           else (st.stepIndex + 3) % 4) ∧
        (updateStepper us st).lastStepUs = us ∧
        coilsOf (updateStepper us st) = stepSeq ((updateStepper us st).stepIndex) ∧
        ∀ us2 : Nat, wsub us2 us < st.stepIntervalUs →
          updateStepper us2 (updateStepper us st) = updateStepper us st)) :=
  updateStepper_spec st us

/-- Witness for C4: a clockwise stepper with interval 1200 µs last stepped at
0 does not advance at 100 µs, advances to phase 1 at 1200 µs, and a repeat
call at 1300 µs produces no extra advance. -/
theorem claim_C4_stepper_pacing_witness :
    updateStepper 100 { washerReset with stepperMode := STEPPER_CW } =
      { washerReset with stepperMode := STEPPER_CW } ∧
    (updateStepper 1200 { washerReset with stepperMode := STEPPER_CW }).stepIndex = 1 ∧
    updateStepper 1300 (updateStepper 1200 { washerReset with stepperMode := STEPPER_CW }) =
      updateStepper 1200 { washerReset with stepperMode := STEPPER_CW } := by
  have h := claim_C4_stepper_pacing { washerReset with stepperMode := STEPPER_CW } 100
  have h2 := claim_C4_stepper_pacing { washerReset with stepperMode := STEPPER_CW } 1200
  refine ⟨(h.2 (by decide)).1 (by decide), ?_, ?_⟩
  · have hx := ((h2.2 (by decide)).2 (by decide)).1
    rw [hx]
    decide
  · exact ((h2.2 (by decide)).2 (by decide)).2.2.2 1300 (by decide)

/-- Claim C10: on a tick of a running stage where the stage budget has
elapsed and a button event is pending, the timeout branch runs first and the
cancel branch second: the machine enters the successor stage, then consumes
the event and enters `IDLE`.  The tick therefore ends in `IDLE` with the
event consumed and all actuators off, with the successor's entry actions
(step-interval, wash-direction reset) still visible in the final state. -/
theorem claim_C10_timeout_then_cancel (st : WasherState) (raw : Bool) (ms us : Nat)
    (hss : st.safeScreenShown = false) (hev : st.startPressedEvent = true)
    (hrun : st.currentState = FILLING ∨ st.currentState = WASHING ∨
      st.currentState = RINSING ∨ st.currentState = SPINNING ∨ st.currentState = DRAINING)
    (htimeout : stageBudget st.currentState ≤ wsub ms st.stateStartMs) :
    (washerLoop raw ms us st).currentState = IDLE ∧
    (washerLoop raw ms us st).startPressedEvent = false ∧
    (washerLoop raw ms us st).inletOn = false ∧
    (washerLoop raw ms us st).drainOn = false ∧
    (washerLoop raw ms us st).stepperMode = STEPPER_STOP ∧
    coilsOf (washerLoop raw ms us st) = (false, false, false, false) ∧
    (washerLoop raw ms us st).stateStartMs = ms ∧
    (st.currentState = FILLING →
      (washerLoop raw ms us st).stepIntervalUs = 1200 ∧
      (washerLoop raw ms us st).washForward = true ∧
      (washerLoop raw ms us st).washPhaseStartMs = ms) ∧
    (st.currentState = WASHING → (washerLoop raw ms us st).stepIntervalUs = 1400) ∧
    (st.currentState = RINSING → (washerLoop raw ms us st).stepIntervalUs = 800) ∧
    (st.currentState = SPINNING → (washerLoop raw ms us st).stepIntervalUs = 1200) := by
  rw [washerLoop_not_shown raw ms us st hss]
  have hb_ev : (updateStepper us (scanStartButton raw ms st)).startPressedEvent = true := by
    rw [update_startPressedEvent]
    exact scan_event_mono raw ms st hev
  have hb_cs : (updateStepper us (scanStartButton raw ms st)).currentState = st.currentState := by
    simp
  have hb_ssm : (updateStepper us (scanStartButton raw ms st)).stateStartMs = st.stateStartMs := by
    simp
  have main := washerSwitch_timeout_and_cancel (updateStepper us (scanStartButton raw ms st))
    ms us hb_ev (by rw [hb_cs]; exact hrun) (by rw [hb_cs, hb_ssm]; exact htimeout)
  rw [hb_cs] at main
  exact main

/-- Witness for C10: from `FILLING` entered at time 0 with an event already
pending, the tick at 5000 ms ends in `IDLE` with the event consumed and the
step interval showing the intervening `WASHING` entry. -/
theorem claim_C10_timeout_then_cancel_witness :
    (washerLoop false 5000 0
      { enterState FILLING 0 0 (setupWasher 0 0) with startPressedEvent := true }).currentState
        = IDLE ∧
    (washerLoop false 5000 0
      { enterState FILLING 0 0 (setupWasher 0 0) with startPressedEvent := true }).startPressedEvent
        = false ∧
    (washerLoop false 5000 0
      { enterState FILLING 0 0 (setupWasher 0 0) with startPressedEvent := true }).stepIntervalUs
        = 1200 := by
  have h := claim_C10_timeout_then_cancel
    { enterState FILLING 0 0 (setupWasher 0 0) with startPressedEvent := true } false 5000 0
    (by decide) (by decide) (by decide) (by decide)
  exact ⟨h.1, h.2.1, (h.2.2.2.2.2.2.2.1 (by decide)).1⟩


lemma enterState_valvesOk (s : WashingState) (ms us : Nat) (st : WasherState) :
    valvesOk (enterState s ms us st) := by
  constructor <;> simp

lemma washerSafeStop_valvesOk (st : WasherState) : valvesOk (washerSafeStop st) :=
  ⟨rfl, rfl⟩

lemma washerSwitch_valvesOk (st : WasherState) (now us : Nat) (h : valvesOk st) :
    valvesOk (washerSwitch now us st) := by
  obtain ⟨h1, h2⟩ := h
  obtain ⟨mode, idx, intv, lsu, cs, ssm, wps, wf, pr, lc, ev, sp, sss, inl, dr,
    i1, i2, i3, i4, ly, lr⟩ := st
  dsimp only at h1 h2 ⊢
  cases cs
  all_goals
    simp only [washerSwitch]
    repeat' split
    all_goals constructor
    all_goals simp_all [inletOf, drainOf]

lemma washerLoop_valvesOk (st : WasherState) (raw : Bool) (ms us : Nat)
    (h : valvesOk st) : valvesOk (washerLoop raw ms us st) := by
  unfold washerLoop
  dsimp only
  apply washerSwitch_valvesOk
  constructor
  · rw [update_inletOn, scan_inletOn, update_currentState, scan_currentState]
    split
    · exact (enterState_valvesOk IDLE ms us _).1
    · exact h.1
  · rw [update_drainOn, scan_drainOn, update_currentState, scan_currentState]
    split
    · exact (enterState_valvesOk IDLE ms us _).2
    · exact h.2

lemma loopTick_valvesOk (st : WasherState) (enabled raw : Bool) (ms us : Nat)
    (h : valvesOk st) : valvesOk (loopTick enabled raw ms us st) := by
  unfold loopTick
  split
  · exact washerLoop_valvesOk st raw ms us h
  · exact washerSafeStop_valvesOk st

lemma runTicks_valvesOk (inputs : List TickInput) (st : WasherState)
    (h : valvesOk st) : valvesOk (runTicks inputs st) := by
  induction inputs generalizing st with
  | nil => exact h
  | cons i rest ih =>
      exact ih _ (loopTick_valvesOk st i.enabled i.raw i.ms i.us h)

lemma valveTable_not_both (c : WashingState) : ¬(inletOf c = true ∧ drainOf c = true) := by
  cases c <;> simp [inletOf, drainOf]

/-- Claim C6: in every state reachable from cold start by any sequence of
ticks (any armed values, button levels and clock readings), the valve lines
are the pure per-stage function of the current stage, and the inlet and drain
valves are never both open. -/
theorem claim_C6_valves_pure_and_exclusive (inputs : List TickInput) :
    ((runTicks inputs coldStart).inletOn = inletOf (runTicks inputs coldStart).currentState ∧
     (runTicks inputs coldStart).drainOn = drainOf (runTicks inputs coldStart).currentState) ∧
    ¬((runTicks inputs coldStart).inletOn = true ∧
      (runTicks inputs coldStart).drainOn = true) := by
  have h := runTicks_valvesOk inputs coldStart (by constructor <;> rfl)
  refine ⟨h, ?_⟩
  intro hboth
  exact valveTable_not_both (runTicks inputs coldStart).currentState
    ⟨h.1 ▸ hboth.1, h.2 ▸ hboth.2⟩

/-- In `WASHING` while agitating forward, the tick flips the drum direction
exactly when the sub-phase elapsed time reaches the forward budget. -/
lemma washerSwitch_washdir (s : WasherState) (now us : Nat)
    (hev : s.startPressedEvent = false) (hcs : s.currentState = WASHING)
    (hwf : s.washForward = true) :
    ((washerSwitch now us s).washForward = false ↔
      WASH_FORWARD_MS ≤ wsub now s.washPhaseStartMs) := by
  obtain ⟨mode, idx, intv, lsu, cs, ssm, wps, wf, pr, lc, ev, sp, sss, inl, dr,
    i1, i2, i3, i4, ly, lr⟩ := s
  dsimp only at hev hcs hwf ⊢
  subst hev hcs hwf
  by_cases hA : WASH_FORWARD_MS ≤ wsub now wps
  · by_cases hT : WASH_MS ≤ wsub now ssm
    · simp [washerSwitch, ge_iff_le, hA, hT]
    · simp [washerSwitch, ge_iff_le, hA, hT]
  · by_cases hT : WASH_MS ≤ wsub now ssm
    · simp [washerSwitch, ge_iff_le, hA, hT]
    · simp [washerSwitch, ge_iff_le, hA, hT]

/-- Unsigned 32-bit subtraction of wrapped counter readings recovers the true
elapsed duration whenever that duration fits in 32 bits. -/
lemma wsub_correct (t0 t1 : Nat) (hle : t0 ≤ t1) (hspan : t1 - t0 < W32) :
    wsub (t1 % W32) (t0 % W32) = t1 - t0 := by
  simp only [wsub, W32] at *
  omega

/-- Claim C9: elapsed-time comparisons are modular 32-bit subtractions, so
they see the true elapsed duration across a single counter wraparound: the
generic `wsub` fact, and its three uses — the stage-budget check (`FILLING`
shown), the stepper pacing check, and the wash sub-phase check — each decide
by the true elapsed time even when the raw counter readings have wrapped. -/
theorem claim_C9_wraparound_robust (t0 t1 : Nat) (hle : t0 ≤ t1) (hspan : t1 - t0 < W32) :
    wsub (t1 % W32) (t0 % W32) = t1 - t0 ∧
    (∀ st : WasherState, ∀ us : Nat, st.safeScreenShown = false →
      st.startPressedEvent = false → st.currentState = FILLING →
      st.stateStartMs = t0 % W32 →
      ((washerLoop false (t1 % W32) us st).currentState = WASHING ↔ FILL_MS ≤ t1 - t0)) ∧
    (∀ st : WasherState, st.stepperMode = STEPPER_CW → st.lastStepUs = t0 % W32 →
      ((updateStepper (t1 % W32) st).stepIndex ≠ st.stepIndex ↔
        st.stepIntervalUs ≤ t1 - t0)) ∧
    (∀ st : WasherState, ∀ us : Nat, st.safeScreenShown = false →
      st.startPressedEvent = false → st.currentState = WASHING →
      st.washForward = true → st.washPhaseStartMs = t0 % W32 →
      ((washerLoop false (t1 % W32) us st).washForward = false ↔
        WASH_FORWARD_MS ≤ t1 - t0)) := by
  have hw := wsub_correct t0 t1 hle hspan
  refine ⟨hw, fun st us h1 h2 h3 h4 => ?_, fun st h1 h2 => ?_, fun st us h1 h2 h3 h4 h5 => ?_⟩
  · have h := washerLoop_timeout_spec st (t1 % W32) us h1 h2 (by rw [h3]; simp)
    rw [h3] at h
    rw [h4, hw] at h
    simp only [stageBudget] at h
    constructor
    · intro hW
      by_contra hn
      have hlt : t1 - t0 < FILL_MS := by omega
      have := (h.2 hlt).1
      rw [hW] at this
      exact absurd this (by simp)
    · intro hge
      have := (h.1 hge).1
      simpa [stageSuccessor] using this
  · have h := updateStepper_spec st (t1 % W32)
    have hne : st.stepperMode ≠ STEPPER_STOP := by rw [h1]; simp
    have key : wsub (t1 % W32) st.lastStepUs = t1 - t0 := by rw [h2]; exact hw
    constructor
    · intro hadv
      by_contra hn
      have hlt : wsub (t1 % W32) st.lastStepUs < st.stepIntervalUs := by rw [key]; omega
      have heq := (h.2 hne).1 hlt
      rw [heq] at hadv
      exact hadv rfl
    · intro hge
      have hidx := ((h.2 hne).2 (by rw [key]; exact hge)).1
      rw [hidx, h1]
      simp only [if_pos]
      omega
  · rw [washerLoop_not_shown false (t1 % W32) us st h1]
    have hb_ev : (updateStepper us (scanStartButton false (t1 % W32) st)).startPressedEvent
        = false := by simp [h2]
    have hb_cs : (updateStepper us (scanStartButton false (t1 % W32) st)).currentState
        = WASHING := by simp [h3]
    have hb_wf : (updateStepper us (scanStartButton false (t1 % W32) st)).washForward
        = true := by simp [h4]
    have hb_wps : (updateStepper us (scanStartButton false (t1 % W32) st)).washPhaseStartMs
        = st.washPhaseStartMs := by simp
    have hiff := washerSwitch_washdir (updateStepper us (scanStartButton false (t1 % W32) st))
      (t1 % W32) us hb_ev hb_cs hb_wf
    rw [hb_wps, h5, hw] at hiff
    exact hiff

/-- Witness for C9: with a true start time 1000 ticks before the 32-bit wrap
and a check 4000 ticks after it (true elapsed exactly 5000 = the fill
budget), the wrapped subtraction still reports 5000 and the `FILLING` stage
transitions to `WASHING`. -/
theorem claim_C9_wraparound_robust_witness :
    wsub (4294971296 % W32) (4294966296 % W32) = 5000 ∧
    (washerLoop false (4294971296 % W32) 0
      { enterState FILLING 0 0 (setupWasher 0 0) with
          stateStartMs := 4294966296 % W32 }).currentState = WASHING := by
  have h := claim_C9_wraparound_robust 4294966296 4294971296 (by decide) (by decide)
  refine ⟨h.1, ?_⟩
  have h2 := h.2.1
    { enterState FILLING 0 0 (setupWasher 0 0) with stateStartMs := 4294966296 % W32 } 0
    (by decide) (by decide) (by decide) (by decide)
  exact h2.mpr (by decide)


@[simp] lemma wsub_self (a : Nat) : wsub a a = 0 := by
  simp only [wsub, W32]
  omega

lemma wsub_nowrap (t m : Nat) (h1 : t ≤ m) (h2 : m < W32) : wsub m t = m - t := by
  simp only [wsub, W32] at *
  omega

/-- The stage switch always consumes a pending button event: whatever branch
runs, the one-shot flag is clear at the end of the switch. -/
lemma washerSwitch_consumes (now us : Nat) (s : WasherState) :
    (washerSwitch now us s).startPressedEvent = false := by
  obtain ⟨mode, idx, intv, lsu, cs, ssm, wps, wf, pr, lc, ev, sp, sss, inl, dr,
    i1, i2, i3, i4, ly, lr⟩ := s
  cases cs
  all_goals
    simp only [washerSwitch]
    repeat' split
    all_goals simp_all

lemma washerLoop_consumes (raw : Bool) (ms us : Nat) (st : WasherState) :
    (washerLoop raw ms us st).startPressedEvent = false :=
  washerSwitch_consumes ms us _

/-- First scan of a press from the released-stable state: the raw change is
recorded with its timestamp and nothing else happens. -/
lemma scan_first_press (st : WasherState) (t : Nat)
    (hp : st.prevStartRaw = false) :
    scanStartButton true t st = { st with prevStartRaw := true, lastStartChangeMs := t } := by
  unfold scanStartButton
  dsimp only
  rw [hp]
  simp

/-- While the press is held and the debounce window has not yet passed, the
scan is a no-op. -/
lemma scan_held_wait (st : WasherState) (m : Nat)
    (hp : st.prevStartRaw = true)
    (hw : ¬ wsub m st.lastStartChangeMs > DEBOUNCE_MS) :
    scanStartButton true m st = st := by
  unfold scanStartButton
  dsimp only
  rw [hp]
  simp [hw]

/-- Once the debounce window has passed with the press still held and not yet
stable, the scan raises the event and adopts the pressed stable level. -/
lemma scan_held_fire (st : WasherState) (m : Nat)
    (hp : st.prevStartRaw = true) (hs : st.stablePressed = false)
    (hw : wsub m st.lastStartChangeMs > DEBOUNCE_MS) :
    scanStartButton true m st =
      { st with startPressedEvent := true, stablePressed := true } := by
  unfold scanStartButton
  dsimp only
  rw [hp]
  repeat' split
  all_goals simp_all

/-- After the press has become stable, further held scans keep the stable
level and raise nothing. -/
lemma scan_held_stable (st : WasherState) (m : Nat)
    (hp : st.prevStartRaw = true) (hs : st.stablePressed = true) :
    (scanStartButton true m st).stablePressed = true ∧
    (scanStartButton true m st).prevStartRaw = true ∧
    (scanStartButton true m st).startPressedEvent = st.startPressedEvent := by
  unfold scanStartButton
  dsimp only
  rw [hp]
  repeat' split
  all_goals simp_all

lemma pressRises_stable (rest : List Nat) (st : WasherState)
    (hp : st.prevStartRaw = true) (hs : st.stablePressed = true) :
    pressRises rest st = 0 := by
  induction rest generalizing st with
  | nil => rfl
  | cons m r ih =>
      obtain ⟨h1, h2, _⟩ := scan_held_stable st m hp hs
      unfold pressRises
      have htail := ih (scanStartButton true m st) h2 h1
      simp [hs, htail]

lemma pressRises_wait (rest : List Nat) (t : Nat) (st : WasherState)
    (hp : st.prevStartRaw = true) (hs : st.stablePressed = false)
    (hl : st.lastStartChangeMs = t)
    (hbound : ∀ m ∈ rest, m < W32 ∧ t ≤ m) :
    ((∃ m ∈ rest, t + DEBOUNCE_MS < m) → pressRises rest st = 1) ∧
    ((∀ m ∈ rest, m ≤ t + DEBOUNCE_MS) → pressRises rest st = 0) := by
  induction rest generalizing st with
  | nil =>
      refine ⟨fun hx => ?_, fun _ => rfl⟩
      obtain ⟨m, hm, _⟩ := hx
      exact absurd hm (List.not_mem_nil m)
  | cons m r ih =>
      obtain ⟨hmW, htm⟩ := hbound m (List.mem_cons_self m r)
      by_cases hw : wsub m st.lastStartChangeMs > DEBOUNCE_MS
      · have hfire := scan_held_fire st m hp hs hw
        have hgt : t + DEBOUNCE_MS < m := by
          rw [hl, wsub_nowrap t m htm hmW] at hw
          omega
        refine ⟨fun _ => ?_, fun hall => absurd (hall m (List.mem_cons_self m r)) (by omega)⟩
        unfold pressRises
        rw [hfire]
        have htail : pressRises r { st with startPressedEvent := true, stablePressed := true } = 0 :=
          pressRises_stable r _ hp rfl
        simp [hs, htail]
      · have hwait := scan_held_wait st m hp hw
        have hle : m ≤ t + DEBOUNCE_MS := by
          rw [hl, wsub_nowrap t m htm hmW] at hw
          omega
        have ihr := ih st hp hs hl (fun x hx => hbound x (List.mem_cons_of_mem m hx))
        refine ⟨fun hx => ?_, fun hall => ?_⟩
        · obtain ⟨x, hxmem, hxgt⟩ := hx
          rcases List.mem_cons.mp hxmem with hxm | hxr
          · exact absurd hxgt (by omega)
          · unfold pressRises
            rw [hwait]
            have htail := ihr.1 ⟨x, hxr, hxgt⟩
            simp [hs, htail]
        · unfold pressRises
          rw [hwait]
          have htail := ihr.2 (fun y hy => hall y (List.mem_cons_of_mem m hy))
          simp [hs, htail]

/-- Counterexample to C2 as stated: a press whose raw pressed level is held
stable for exactly the 150 ms debounce window (raw high from the tick at 0 ms
through the tick at 150 ms) produces zero events, because the scanner demands
strictly more than 150 ms of stability (`>`), not at least 150 ms (`≥`). -/
theorem claim_C2_exact_window_cex :
    pressRises [0, DEBOUNCE_MS] washerReset = 0 ∧
    ¬ pressRises [0, DEBOUNCE_MS] washerReset = 1 := by
  refine ⟨by decide, by decide⟩

/-- Claim C2 as amended: for every press beginning from the released-stable
sampler state, if some tick observes the still-held level strictly more than
150 ms after the press's raw transition, then exactly one rising-edge event is
produced over the whole held period — never zero and never more than one, no
matter how many ticks elapse; and the stage switch consumes a pending event in
the same tick it observes it, in every stage. -/
theorem claim_C2_one_event_per_press (st : WasherState) (t : Nat) (rest : List Nat)
    (hp : st.prevStartRaw = false) (hs : st.stablePressed = false)
    (hbound : ∀ m ∈ rest, m < W32 ∧ t ≤ m)
    (hwin : ∃ m ∈ rest, t + DEBOUNCE_MS < m) :
    pressRises (t :: rest) st = 1 ∧
    ∀ now us2 : Nat, ∀ s : WasherState, (washerSwitch now us2 s).startPressedEvent = false := by
  refine ⟨?_, fun now us2 s => washerSwitch_consumes now us2 s⟩
  unfold pressRises
  rw [scan_first_press st t hp]
  have hwait := pressRises_wait rest t
    { st with prevStartRaw := true, lastStartChangeMs := t } rfl hs rfl hbound
  rw [hwait.1 hwin]
  simp [hs]

/-- Witness for the amended C2: a press first seen at 0 ms and still held at
the tick at 200 ms yields exactly one event. -/
theorem claim_C2_one_event_per_press_witness :
    pressRises [0, 200] washerReset = 1 :=
  (claim_C2_one_event_per_press washerReset 0 [200] rfl rfl (by decide) (by decide)).1


lemma scan_clean_no_event (raw : Bool) (ms : Nat) (st : WasherState)
    (hp : st.prevStartRaw = false) (_hs : st.stablePressed = false)
    (he : st.startPressedEvent = false) :
    (scanStartButton raw ms st).startPressedEvent = false := by
  cases raw
  · rw [scan_false_startPressedEvent]
    exact he
  · rw [scan_first_press st ms hp]
    exact he

lemma washerSwitch_idle_noevent (now us : Nat) (s : WasherState)
    (h1 : s.currentState = IDLE) (h2 : s.startPressedEvent = false) :
    washerSwitch now us s = s := by
  obtain ⟨mode, idx, intv, lsu, cs, ssm, wps, wf, pr, lc, ev, sp, sss, inl, dr,
    i1, i2, i3, i4, ly, lr⟩ := s
  dsimp only at h1 h2
  subst h1 h2
  simp [washerSwitch]

/-- First armed tick from a locked state whose debounce sampler is released
and clean: it ends in `IDLE` with no pending event and all actuators off. -/
lemma rearm_first_tick_obs (st : WasherState) (raw : Bool) (ms us : Nat)
    (hshown : st.safeScreenShown = true)
    (hp : st.prevStartRaw = false) (hs : st.stablePressed = false)
    (he : st.startPressedEvent = false) :
    obsOf (washerLoop raw ms us st) =
      (IDLE, false, false, false, STEPPER_STOP, (false, false, false, false)) := by
  unfold washerLoop
  dsimp only
  rw [if_pos hshown]
  have hAev : (enterState IDLE ms us { st with safeScreenShown := false }).startPressedEvent
      = false := by simpa using he
  have hAp : (enterState IDLE ms us { st with safeScreenShown := false }).prevStartRaw
      = false := by simpa using hp
  have hAs : (enterState IDLE ms us { st with safeScreenShown := false }).stablePressed
      = false := by simpa using hs
  have hBev := scan_clean_no_event raw ms _ hAp hAs hAev
  have hCstop : updateStepper us
      (scanStartButton raw ms (enterState IDLE ms us { st with safeScreenShown := false })) =
      scanStartButton raw ms (enterState IDLE ms us { st with safeScreenShown := false }) := by
    apply (updateStepper_spec _ us).1
    rw [scan_stepperMode, enterState_stepperMode]
    rfl
  rw [hCstop]
  rw [washerSwitch_idle_noevent ms us _ (by rw [scan_currentState, enterState_currentState]) hBev]
  unfold obsOf
  rw [scan_currentState, enterState_currentState, hBev, scan_inletOn, enterState_inletOn,
    scan_drainOn, enterState_drainOn, scan_stepperMode, enterState_stepperMode, scan_coils,
    enterState_coils]
  rfl

/-- Counterexample to C7 as stated: hold the START key down from an armed tick
at 100 ms, disarm at 200 ms, re-arm at 300 ms with the key still held.  The
first re-armed tick starts a cycle (`FILLING`, inlet open) because the
debounce sampler's state survived the disarm, whereas the very same tick from
a fresh cold start stays in `IDLE` with the inlet closed. -/
theorem claim_C7_rearm_cex :
    (runTicks [⟨true, true, 100, 0⟩, ⟨false, false, 200, 0⟩, ⟨true, true, 300, 0⟩]
        coldStart).currentState = FILLING ∧
    (runTicks [⟨true, true, 100, 0⟩, ⟨false, false, 200, 0⟩, ⟨true, true, 300, 0⟩]
        coldStart).inletOn = true ∧
    (loopTick true true 300 0 coldStart).currentState = IDLE ∧
    (loopTick true true 300 0 coldStart).inletOn = false := by
  refine ⟨by decide, by decide, by decide, by decide⟩

/-- Claim C7 as amended: after any disarm period the machine is in the safe
`IDLE` state, and the first re-armed tick has the same observable behaviour
(stage, pending event, valves, stepper) as the same tick from a fresh cold
start, provided the debounce sampler is in its released cold-start state
(previous raw level and stable level released, no pending event) when
re-armed — the sampler's state, unlike the rest, persists across the disarm
period. -/
theorem claim_C7_rearm_like_cold_start (st : WasherState) (raw : Bool) (ms us : Nat)
    (hp : st.prevStartRaw = false) (hs : st.stablePressed = false)
    (he : st.startPressedEvent = false) :
    obsOf (washerLoop raw ms us (washerSafeStop st)) =
      obsOf (washerLoop raw ms us coldStart) ∧
    obsOf (washerLoop raw ms us (washerSafeStop st)) =
      (IDLE, false, false, false, STEPPER_STOP, (false, false, false, false)) := by
  have h1 := rearm_first_tick_obs (washerSafeStop st) raw ms us
    (safeStop_safeScreenShown st) (by simpa using hp) (by simpa using hs) (by simpa using he)
  have h2 := rearm_first_tick_obs coldStart raw ms us rfl rfl rfl rfl
  exact ⟨h1.trans h2.symm, h1⟩

/-- Witness for the amended C7: with a released sampler, the first re-armed
tick observably equals the cold-start tick. -/
theorem claim_C7_rearm_like_cold_start_witness :
    obsOf (washerLoop true 300 0 (washerSafeStop washerReset)) =
      obsOf (washerLoop true 300 0 coldStart) :=
  (claim_C7_rearm_like_cold_start washerReset true 300 0 rfl rfl rfl).1


/-- One scan changes the one-shot flag exactly by OR-ing in the debounced
rising edge: it never clears the flag and sets it only on a rising edge. -/
lemma scan_event_eq (raw : Bool) (now : Nat) (st : WasherState) :
    (scanStartButton raw now st).startPressedEvent =
      (st.startPressedEvent || riseFlag raw now st) := by
  obtain ⟨mode, idx, intv, lsu, cs, ssm, wps, wf, pr, lc, ev, sp, sss, inl, dr,
    i1, i2, i3, i4, ly, lr⟩ := st
  dsimp only
  cases raw <;> cases pr <;> cases sp <;>
    by_cases hw : wsub now lc > DEBOUNCE_MS <;>
    simp [scanStartButton, riseFlag, wsub_self, hw]





lemma runCounts_eq (inputs : List TickInput) : ∀ st : WasherState,
    st.startPressedEvent = false → runConsumes inputs st = runRises inputs st := by
  induction inputs with
  | nil => intro st h; rfl
  | cons i r ih =>
      intro st h
      have hnext : (loopTick i.enabled i.raw i.ms i.us st).startPressedEvent = false := by
        unfold loopTick
        split
        · exact washerLoop_consumes i.raw i.ms i.us st
        · simpa using h
      unfold runConsumes runRises
      rw [ih (loopTick i.enabled i.raw i.ms i.us st) hnext]
      congr 1
      unfold tickConsumes tickRises
      by_cases he : i.enabled = true
      · rw [if_pos he, if_pos he]
        have haev : (if st.safeScreenShown then
            enterState IDLE i.ms i.us { st with safeScreenShown := false }
           else st).startPressedEvent = false := by
          split
          · simpa using h
          · exact h
        rw [update_startPressedEvent, scan_event_eq, haev]
        simp
      · rw [if_neg he, if_neg he]

/-- Claim C8: the one-shot event flag becomes true only through a debounced
rising edge (one scan ORs exactly the rising-edge condition into the flag and
never queues more than one), the stage switch always clears a pending flag in
the tick that observes it, and over every execution from cold start the
number of consumed events equals the number of debounced rising edges — in
particular no execution consumes more events than rising edges occurred. -/
theorem claim_C8_one_shot_discipline :
    (∀ raw : Bool, ∀ now : Nat, ∀ st : WasherState,
      (scanStartButton raw now st).startPressedEvent =
        (st.startPressedEvent || riseFlag raw now st)) ∧
    (∀ now us : Nat, ∀ st : WasherState,
      (washerSwitch now us st).startPressedEvent = false) ∧
    (∀ inputs : List TickInput, runConsumes inputs coldStart = runRises inputs coldStart) :=
  ⟨scan_event_eq, washerSwitch_consumes,
    fun inputs => runCounts_eq inputs coldStart rfl⟩

end Washer
